import Mathlib

/-!
Shallow embedding of the Person Directory Service (`server.go`): a CRUD HTTP
service over one entity `Pessoa` stored in a relational table `individuos`.

Handlers are embedded as pure functions.  Inputs the Go handler reads from the
request (the `Content-Type` header, the `{id}` path variable, the result of
decoding the JSON body) are explicit parameters.  The database is modelled as
explicit state (`DB`): a list of rows in storage order plus the
auto-increment counter.  Storage outcomes that can fail independently of the
table contents (query errors, scan errors, exec errors) enter through `Core`
variants of the handlers that take the storage outcome as a parameter; the
non-`Core` handler applies the core to the outcome a healthy database
produces.  Machine integers (Go `int`, MySQL `INT`) are modelled as `Int`;
no claim involves values near the 64-bit boundary.
-/

/-- Pessoa mirrors the Go struct: `ID int` with tag `json:"id"`,
`Nome string` with tag `json:"nome"`. -/
structure Pessoa where
  ID : Int
  Nome : String
deriving DecidableEq, Repr, BEq

/-- Response models what the handler writes: the HTTP status code and the
response body as a string.  (Headers are not needed by any claim.) -/
structure Response where
  status : Nat
  body : String
deriving DecidableEq, Repr

/-- Model of Go `http.Error(w, msg, code)`: it writes `msg` followed by a
newline and sets the status code. -/
def httpError (msg : String) (code : Nat) : Response :=
  { status := code, body := msg ++ "\n" }

/-- Model of the escaping `encoding/json` applies to one character of a Go
string: quote, backslash and the HTML characters are escaped; other
printable characters are kept.  (Control characters other than the three
named ones are not modelled; no claim uses them.) -/
def jsonEscapeChar (c : Char) : String :=
  if c = '"' then "\\\""
  else if c = '\\' then "\\\\"
  else if c = '<' then "\\u003c"
  else if c = '>' then "\\u003e"
  else if c = '&' then "\\u0026"
  else if c = '\n' then "\\n"
  else if c = '\t' then "\\t"
  else if c = '\r' then "\\r"
  else String.singleton c

/-- Model of the `encoding/json` string literal for a Go string. -/
def jsonStringLit (s : String) : String :=
  "\"" ++ String.join (s.data.map jsonEscapeChar) ++ "\""

/-- JSON object `encoding/json` produces for a `Pessoa` value (fields in
struct order, keys from the struct tags), without the trailing newline. -/
def jsonPessoaObj (p : Pessoa) : String :=
  "\x7b\"id\":" ++ toString p.ID ++ ",\"nome\":" ++ jsonStringLit p.Nome ++ "\x7d"

/-- Output of `json.NewEncoder(w).Encode(p)`: the object plus a newline. -/
def jsonPessoa (p : Pessoa) : String :=
  jsonPessoaObj p ++ "\n"

/-- Big-endian decimal digit list of a natural number; the first argument is
fuel making the recursion structural (fuel `n` is enough for value `n`). -/
def natDigitsAux : Nat → Nat → List Char
  | _, 0 => []
  | 0, _ + 1 => []
  | fuel + 1, n + 1 =>
      natDigitsAux fuel ((n + 1) / 10) ++ [Nat.digitChar ((n + 1) % 10)]

/-- Decimal digit characters of a natural number, most significant first. -/
def natDigits (n : Nat) : List Char :=
  if n = 0 then ['0'] else natDigitsAux n n

/-- Decimal rendering of a Go `int`, as `strconv.Itoa` / `fmt` would print
it: the id a client reads back from a JSON response and puts in a path. -/
def renderId (i : Int) : String :=
  if i < 0 then String.mk ('-' :: natDigits i.natAbs) else String.mk (natDigits i.natAbs)

/-- Numeric value of a decimal digit character. -/
def digitVal (c : Char) : Nat := c.toNat - 48

/-- One step of accumulating a decimal digit onto a parsed value. -/
def parseStep (acc : Nat) (c : Char) : Nat := 10 * acc + digitVal c

/-- Parse of a non-empty all-digit character list as a natural number;
`none` on the empty list or on any non-digit character. -/
def parseDigits (l : List Char) : Option Nat :=
  if l.isEmpty then none
  else if l.all Char.isDigit then some (l.foldl parseStep 0) else none

/-- Model of Go `strconv.Atoi`: an optional sign followed by one or more
decimal digits; anything else fails.  (The int64 range check of the real
`Atoi` is not modelled; no claim involves out-of-range numerals.) -/
def goAtoi (s : String) : Option Int :=
  match s.data with
  | [] => none
  | c :: rest =>
      if c = '-' then (parseDigits rest).map (fun n => -(Int.ofNat n))
      else if c = '+' then (parseDigits rest).map Int.ofNat
      else (parseDigits (c :: rest)).map Int.ofNat

/-- Value of the longest leading run of decimal digits of a character list,
accumulated onto `acc`; the run ends at the first non-digit character. -/
def mysqlIntPrefix : List Char → Nat → Nat
  | [], acc => acc
  | c :: rest, acc => if c.isDigit then mysqlIntPrefix rest (10 * acc + digitVal c) else acc

/-- Modelled external collaborator (MySQL): comparing a string parameter to
an `INT` column converts the string to a number by its longest numeric
prefix (warning 1292): an optional sign followed by the leading run of
decimal digits — so "12abc" converts to 12 and a string with no such prefix
converts to 0.  Fractional and exponent prefixes ("1.5", "1e2"), which
convert to doubles that equal no stored id or to other values, are not
modelled; no claim's statement, witness or counterexample relies on them. -/
def mysqlCoerceInt (s : String) : Int :=
  match s.data with
  | [] => 0
  | c :: rest =>
      if c = '-' then -(Int.ofNat (mysqlIntPrefix rest 0))
      else if c = '+' then Int.ofNat (mysqlIntPrefix rest 0)
      else Int.ofNat (mysqlIntPrefix (c :: rest) 0)

/-- The database state: the `individuos` table rows in storage order plus
the `AUTO_INCREMENT` counter (MySQL starts it at 1 on a fresh table). -/
structure DB where
  rows : List Pessoa
  nextId : Int
deriving DecidableEq, Repr

/-- Statement `SELECT id, nome FROM individuos` on a healthy database. -/
def dbSelectAll (db : DB) : List Pessoa := db.rows

/-- Outcome of `QueryRow(...).Scan(...)`: a row, `sql.ErrNoRows`, or some
other storage failure. -/
inductive QueryRowOutcome where
  | found (p : Pessoa)
  | noRows
  | failure (msg : String)
deriving DecidableEq, Repr

/-- Statement `SELECT id, nome FROM individuos WHERE id = ?` with a string
parameter, on a healthy database: the id column is compared to the MySQL
coercion of the string; `id` is the primary key so at most one row matches. -/
def dbQueryRowById (db : DB) (idStr : String) : QueryRowOutcome :=
  match db.rows.find? (fun p => p.ID == mysqlCoerceInt idStr) with
  | some p => .found p
  | none => .noRows

/-- Statement `INSERT INTO individuos (nome) VALUES (?)` on a healthy
database: appends a row with the next auto-increment id and returns that id
(what `LastInsertId` reports). -/
def dbInsert (db : DB) (nome : String) : DB × Int :=
  ({ rows := db.rows ++ [{ ID := db.nextId, Nome := nome }], nextId := db.nextId + 1 },
   db.nextId)

/-- Statement `UPDATE individuos SET nome = ? WHERE id = ?` on a healthy
database: rewrites the name of every matching row and returns the count
`RowsAffected` reports.  The driver's connection string sets no
`clientFoundRows` flag, so MySQL reports CHANGED rows: a row whose name
already equals the new name is not counted. -/
def dbUpdateById (db : DB) (id : Int) (nome : String) : DB × Nat :=
  ({ db with rows := db.rows.map fun p => if p.ID = id then { p with Nome := nome } else p },
   db.rows.countP (fun p => p.ID == id && p.Nome != nome))

/-- Statement `DELETE FROM individuos WHERE id = ?` with a string parameter,
on a healthy database: removes the rows whose id equals the coerced string.
The handler discards the result value, so none is returned. -/
def dbDeleteById (db : DB) (idStr : String) : DB :=
  { db with rows := db.rows.filter fun p => p.ID != mysqlCoerceInt idStr }

/-- Model of Go `append` on a `[]Pessoa` slice: a `nil` slice (`none`) and
an empty slice are distinct values, and appending to either yields a
non-`nil` slice. -/
def goAppend (xs : Option (List Pessoa)) (p : Pessoa) : Option (List Pessoa) :=
  some (xs.getD [] ++ [p])

/-- Output of `json.NewEncoder(w).Encode` on a `[]Pessoa` slice: a `nil`
slice encodes as `null`, a non-`nil` slice as a JSON array; a newline
follows either. -/
def goEncodeSlice : Option (List Pessoa) → String
  | none => "null\n"
  | some xs => "[" ++ String.intercalate "," (xs.map jsonPessoaObj) ++ "]\n"

/-- Handler `listarPessoas` applied to the outcome of the select-all query.
The Go loop scans each row into a `Pessoa` and appends it to a slice that
starts `nil`; the slice is then JSON-encoded.  (Per-row scan failures do not
occur on a healthy row list and are not modelled.) -/
def listarPessoasCore (q : Except String (List Pessoa)) : Response :=
  match q with
  | .error e => httpError ("Erro ao buscar pessoas: " ++ e) 500
  | .ok rows => { status := 200, body := goEncodeSlice (rows.foldl goAppend none) }

/-- Handler `listarPessoas` against a healthy database. -/
def listarPessoas (db : DB) : Response :=
  listarPessoasCore (.ok (dbSelectAll db))

/-- Handler `obterPessoa` applied to the outcome of the select-by-id query:
`sql.ErrNoRows` answers 404, any other failure answers 500, a row is
JSON-encoded with implicit status 200. -/
def obterPessoaCore (q : QueryRowOutcome) : Response :=
  match q with
  | .found p => { status := 200, body := jsonPessoa p }
  | .noRows => httpError "Pessoa não encontrada" 404
  | .failure e => httpError ("Erro ao buscar pessoa: " ++ e) 500

/-- Handler `obterPessoa` against a healthy database; `idStr` is the raw
`{id}` path variable (the handler never parses it). -/
def obterPessoa (db : DB) (idStr : String) : Response :=
  obterPessoaCore (dbQueryRowById db idStr)

/-- Handler `adicionarPessoa`: rejects a `Content-Type` header different
from the exact string `"application/json"` with 415 before reading the
body; a body that fails to decode answers 400; otherwise the name is
inserted, the decoded struct's ID field is overwritten with the id the
insert generated, and the struct is JSON-encoded with implicit status 200.
`decoded` is the result of `json.NewDecoder(r.Body).Decode`.  The insert and
`LastInsertId` succeed on the healthy database modelled here. -/
def adicionarPessoa (db : DB) (contentType : String) (decoded : Except String Pessoa) :
    Response × DB :=
  if contentType != "application/json" then
    (httpError "O Content-Type deve ser application/json" 415, db)
  else
    match decoded with
    | .error e => (httpError ("Erro ao decodificar JSON: " ++ e) 400, db)
    | .ok novaPessoa =>
        let res := dbInsert db novaPessoa.Nome
        ({ status := 200, body := jsonPessoa { novaPessoa with ID := res.2 } }, res.1)

/-- Handler `removerPessoa` applied to the outcome of the delete statement:
a failure answers 500, success writes status 204 and no body. -/
def removerPessoaCore (e : Except String Unit) : Response :=
  match e with
  | .error msg => httpError ("Erro ao deletar pessoa: " ++ msg) 500
  | .ok _ => { status := 204, body := "" }

/-- Handler `removerPessoa` against a healthy database; `idStr` is the raw
`{id}` path variable (the handler never parses it), and the delete
statement succeeds whether or not a row matched. -/
def removerPessoa (db : DB) (idStr : String) : Response × DB :=
  (removerPessoaCore (.ok ()), dbDeleteById db idStr)

/-- Handler `modificarPessoa`: the exact `Content-Type` check (415) comes
first, then `strconv.Atoi` on the `{id}` path variable (400 on failure),
then body decoding (400 on failure), then the update statement; zero
affected rows answers 404, otherwise the decoded struct with its ID field
overwritten by the path id is JSON-encoded with implicit status 200.  The
update statement and `RowsAffected` succeed on the healthy database
modelled here. -/
def modificarPessoa (db : DB) (contentType : String) (idStr : String)
    (decoded : Except String Pessoa) : Response × DB :=
  if contentType != "application/json" then
    (httpError "O Content-Type deve ser application/json" 415, db)
  else
    match goAtoi idStr with
    | none => (httpError "ID inválido" 400, db)
    | some id =>
        match decoded with
        | .error e => (httpError ("Erro ao decodificar JSON: " ++ e) 400, db)
        | .ok pessoaAtualizada =>
            let res := dbUpdateById db id pessoaAtualizada.Nome
            if res.2 = 0 then (httpError "Pessoa não encontrada" 404, res.1)
            else ({ status := 200, body := jsonPessoa { pessoaAtualizada with ID := id } }, res.1)

/-- Handler `bemVindo`: a fixed greeting with implicit status 200. -/
def bemVindo : Response :=
  { status := 200, body := "Bem-vindo ao nosso serviço!" }

/-- The digits produced for a positive value below the fuel bound are
non-empty, all decimal digits, and fold back (most significant first) to the
value they were produced from. -/
theorem natDigitsAux_spec (fuel : Nat) : ∀ n, 0 < n → n ≤ fuel →
    natDigitsAux fuel n ≠ [] ∧ (natDigitsAux fuel n).all Char.isDigit = true ∧
      ∀ a, (natDigitsAux fuel n).foldl parseStep a =
        a * 10 ^ (natDigitsAux fuel n).length + n := by
  induction fuel with
  | zero => intro n hn hle; omega
  | succ fuel ih =>
      intro n hn hle
      obtain ⟨m, rfl⟩ : ∃ m, n = m + 1 := ⟨n - 1, by omega⟩
      have hdig : digitVal (Nat.digitChar ((m + 1) % 10)) = (m + 1) % 10 := by
        have h10 : (m + 1) % 10 < 10 := Nat.mod_lt _ (by omega)
        interval_cases h : (m + 1) % 10 <;> decide
      have hisdig : (Nat.digitChar ((m + 1) % 10)).isDigit = true := by
        have h10 : (m + 1) % 10 < 10 := Nat.mod_lt _ (by omega)
        interval_cases h : (m + 1) % 10 <;> decide
      rw [natDigitsAux]
      rcases Nat.eq_zero_or_pos ((m + 1) / 10) with hq | hq
      · have haux : natDigitsAux fuel ((m + 1) / 10) = [] := by
          rw [hq]; cases fuel <;> rfl
        refine ⟨by simp [haux], by simp [haux, hisdig], ?_⟩
        intro a
        have hm : (m + 1) % 10 = m + 1 := by omega
        rw [haux, List.nil_append]
        simp only [List.foldl_cons, List.foldl_nil, List.length_cons, List.length_nil,
          parseStep, hdig]
        simp only [hm, zero_add, pow_one]
        omega
      · have hqle : (m + 1) / 10 ≤ fuel := by
          have := Nat.div_lt_self (by omega : 0 < m + 1) (by omega : 1 < 10)
          omega
        obtain ⟨hne, hall, hfold⟩ := ih ((m + 1) / 10) hq hqle
        refine ⟨by simp, ?_, ?_⟩
        · simp [List.all_append, hall, hisdig]
        · intro a
          rw [List.foldl_append, hfold a]
          simp [parseStep, hdig]
          rw [pow_succ]
          have : 10 * ((m + 1) / 10) + (m + 1) % 10 = m + 1 := Nat.div_add_mod _ _
          ring_nf
          omega

/-- Parsing the decimal digits of a natural number recovers it. -/
theorem parseDigits_natDigits (n : Nat) : parseDigits (natDigits n) = some n := by
  rcases Nat.eq_zero_or_pos n with rfl | hn
  · decide
  · obtain ⟨hne, hall, hfold⟩ := natDigitsAux_spec n n hn le_rfl
    rw [natDigits, if_neg (by omega)]
    rw [parseDigits, if_neg (by simpa [List.isEmpty_iff] using hne), if_pos hall, hfold 0]
    simp

/-- The decimal digit list of a natural number is never empty. -/
theorem natDigits_ne_nil (n : Nat) : natDigits n ≠ [] := by
  rcases Nat.eq_zero_or_pos n with rfl | hn
  · decide
  · obtain ⟨hne, _, _⟩ := natDigitsAux_spec n n hn le_rfl
    rw [natDigits, if_neg (by omega)]; exact hne

/-- Every character the digit list produces is a decimal digit, hence not a
sign character. -/
theorem natDigits_head_not_sign (n : Nat) (c : Char) (rest : List Char)
    (h : natDigits n = c :: rest) : c ≠ '-' ∧ c ≠ '+' := by
  have hall : (natDigits n).all Char.isDigit = true := by
    rcases Nat.eq_zero_or_pos n with rfl | hn
    · decide
    · obtain ⟨_, hall, _⟩ := natDigitsAux_spec n n hn le_rfl
      rw [natDigits, if_neg (by omega)]; exact hall
  rw [h] at hall
  simp only [List.all_cons, Bool.and_eq_true] at hall
  constructor <;> rintro rfl <;> simpa using hall.1

/-- Round trip: `strconv.Atoi` applied to the decimal rendering of an
integer recovers the integer. -/
theorem goAtoi_renderId (i : Int) : goAtoi (renderId i) = some i := by
  rw [renderId]
  split
  · rename_i hneg
    show goAtoi (String.mk ('-' :: natDigits i.natAbs)) = some i
    have h1 : goAtoi (String.mk ('-' :: natDigits i.natAbs)) =
        (parseDigits (natDigits i.natAbs)).map (fun n => -(Int.ofNat n)) := rfl
    rw [h1, parseDigits_natDigits]
    simp only [Option.map_some']
    congr 1
    simp only [Int.ofNat_eq_natCast]
    omega
  · rename_i hpos
    show goAtoi (String.mk (natDigits i.natAbs)) = some i
    obtain ⟨c, rest, hl⟩ : ∃ c rest, natDigits i.natAbs = c :: rest := by
      rcases h : natDigits i.natAbs with _ | ⟨c, rest⟩
      · exact absurd h (natDigits_ne_nil _)
      · exact ⟨c, rest, rfl⟩
    obtain ⟨hcm, hcp⟩ := natDigits_head_not_sign _ _ _ hl
    have h1 : goAtoi (String.mk (c :: rest)) =
        if c = '-' then (parseDigits rest).map (fun n => -(Int.ofNat n))
        else if c = '+' then (parseDigits rest).map Int.ofNat
        else (parseDigits (c :: rest)).map Int.ofNat := rfl
    rw [hl, h1, if_neg hcm, if_neg hcp, ← hl, parseDigits_natDigits]
    simp only [Option.map_some']
    congr 1
    simp only [Int.ofNat_eq_natCast]
    omega

/-- On an all-digit list the longest-prefix accumulator consumes the whole
list and agrees with the digit fold. -/
theorem mysqlIntPrefix_eq_foldl : ∀ (l : List Char) (acc : Nat),
    l.all Char.isDigit = true → mysqlIntPrefix l acc = l.foldl parseStep acc := by
  intro l
  induction l with
  | nil =>
      intro acc _
      rfl
  | cons c rest ih =>
      intro acc hall
      simp only [List.all_cons, Bool.and_eq_true] at hall
      simp only [mysqlIntPrefix, hall.1, if_true, List.foldl_cons, parseStep]
      exact ih _ hall.2

/-- The longest-prefix value of the decimal digits of a natural number is
that number. -/
theorem mysqlIntPrefix_natDigits (n : Nat) : mysqlIntPrefix (natDigits n) 0 = n := by
  rcases Nat.eq_zero_or_pos n with rfl | hn
  · decide
  · obtain ⟨_, hall, hfold⟩ := natDigitsAux_spec n n hn le_rfl
    rw [natDigits, if_neg (by omega)]
    rw [mysqlIntPrefix_eq_foldl _ _ hall, hfold 0]
    simp

/-- MySQL coercion of the decimal rendering of an id recovers the id. -/
theorem mysqlCoerceInt_renderId (i : Int) : mysqlCoerceInt (renderId i) = i := by
  rw [renderId]
  split
  · rename_i hneg
    show mysqlCoerceInt (String.mk ('-' :: natDigits i.natAbs)) = i
    have h1 : mysqlCoerceInt (String.mk ('-' :: natDigits i.natAbs)) =
        -(Int.ofNat (mysqlIntPrefix (natDigits i.natAbs) 0)) := rfl
    rw [h1, mysqlIntPrefix_natDigits]
    simp only [Int.ofNat_eq_natCast]
    omega
  · rename_i hpos
    show mysqlCoerceInt (String.mk (natDigits i.natAbs)) = i
    obtain ⟨c, rest, hl⟩ : ∃ c rest, natDigits i.natAbs = c :: rest := by
      rcases h : natDigits i.natAbs with _ | ⟨c, rest⟩
      · exact absurd h (natDigits_ne_nil _)
      · exact ⟨c, rest, rfl⟩
    obtain ⟨hcm, hcp⟩ := natDigits_head_not_sign _ _ _ hl
    have h1 : mysqlCoerceInt (String.mk (c :: rest)) =
        if c = '-' then -(Int.ofNat (mysqlIntPrefix rest 0))
        else if c = '+' then Int.ofNat (mysqlIntPrefix rest 0)
        else Int.ofNat (mysqlIntPrefix (c :: rest) 0) := rfl
    rw [hl, h1, if_neg hcm, if_neg hcp, ← hl, mysqlIntPrefix_natDigits]
    simp only [Int.ofNat_eq_natCast]
    omega

/-- A Get-by-id request whose coerced id matches no stored row is answered
with the 404 not-found error. -/
theorem obterPessoa_no_match (db : DB) (idStr : String)
    (h : ∀ p ∈ db.rows, p.ID ≠ mysqlCoerceInt idStr) :
    obterPessoa db idStr = httpError "Pessoa não encontrada" 404 := by
  have hfind : db.rows.find? (fun p => p.ID == mysqlCoerceInt idStr) = none :=
    List.find?_eq_none.mpr (by intro p hp; simpa using h p hp)
  simp only [obterPessoa, dbQueryRowById, hfind]
  rfl

/-- A Create request with the exact JSON content-type and a decodable body
inserts the name under the next auto-increment id and echoes the created
Person. -/
theorem adicionarPessoa_ok (db : DB) (p : Pessoa) :
    adicionarPessoa db "application/json" (.ok p) =
      ({ status := 200, body := jsonPessoa { p with ID := db.nextId } },
       { rows := db.rows ++ [{ ID := db.nextId, Nome := p.Nome }], nextId := db.nextId + 1 }) := by
  simp [adicionarPessoa, dbInsert]

/-- An Update request with the exact JSON content-type, a path id parsing
to `id` and a decodable body reduces to the rows-affected test on the
update statement. -/
theorem modificarPessoa_ok (db : DB) (idStr : String) (id : Int) (p : Pessoa)
    (hid : goAtoi idStr = some id) :
    modificarPessoa db "application/json" idStr (.ok p) =
      if (dbUpdateById db id p.Nome).2 = 0 then
        (httpError "Pessoa não encontrada" 404, (dbUpdateById db id p.Nome).1)
      else
        ({ status := 200, body := jsonPessoa { p with ID := id } },
         (dbUpdateById db id p.Nome).1) := by
  simp only [modificarPessoa, hid]
  simp

/-- C2 (counterexample): with no rows stored, the List operation answers
status 200 with body the JSON `null` encoding of the nil Go slice, not the
empty-array encoding the claim states. -/
theorem C2_counterexample :
    (listarPessoas { rows := [], nextId := 1 }).status = 200 ∧
    (listarPessoas { rows := [], nextId := 1 }).body = "null\n" ∧
    "null\n" ≠ "[]\n" ∧ "null\n" ≠ "[]" := by decide

/-- C2 (amended): when the storage table contains no rows, the List
operation responds with status 200 and JSON `null` as body (plus the
encoder's newline): the handler JSON-encodes a Go slice that is still nil,
which encodes as `null`, not as an empty array. -/
theorem C2_list_empty_returns_null (nextId : Int) :
    listarPessoas { rows := [], nextId := nextId } = { status := 200, body := "null\n" } := rfl

/-- C3: on a Get-by-id request, when no stored row matches the id the
handler answers 404 (`sql.ErrNoRows`), and when the row lookup fails for
any other reason it answers 500. -/
theorem C3_get_not_found_and_failure :
    (∀ (db : DB) (idStr : String),
        (∀ p ∈ db.rows, p.ID ≠ mysqlCoerceInt idStr) → (obterPessoa db idStr).status = 404) ∧
    (∀ msg : String, (obterPessoaCore (.failure msg)).status = 500) := by
  constructor
  · intro db idStr h
    rw [obterPessoa_no_match db idStr h]
    rfl
  · intro msg
    rfl

/-- Witness for C3 at a concrete empty table and a concrete failure. -/
theorem C3_witness :
    (obterPessoa { rows := [], nextId := 1 } "7").status = 404 ∧
    (obterPessoaCore (.failure "connection reset")).status = 500 :=
  ⟨C3_get_not_found_and_failure.1 { rows := [], nextId := 1 } "7" (by simp),
   C3_get_not_found_and_failure.2 "connection reset"⟩

/-- C5: every Delete request whose delete statement succeeds is answered
with status 204 and an empty body, whatever the table contents and whatever
the path id — deleting a nonexistent id is not an error. -/
theorem C5_delete_no_content (db : DB) (idStr : String) :
    (removerPessoa db idStr).1.status = 204 ∧ (removerPessoa db idStr).1.body = "" :=
  ⟨rfl, rfl⟩

/-- C6: a Create or Update request whose Content-Type header differs from
"application/json" is answered 415, whatever the body decodes to, and the
database is left unchanged. -/
theorem C6_content_type_guard (db : DB) (ct : String) (decoded : Except String Pessoa)
    (idStr : String) (h : ct ≠ "application/json") :
    adicionarPessoa db ct decoded =
      (httpError "O Content-Type deve ser application/json" 415, db) ∧
    modificarPessoa db ct idStr decoded =
      (httpError "O Content-Type deve ser application/json" 415, db) := by
  have hb : (ct != "application/json") = true := by simpa using h
  refine ⟨?_, ?_⟩ <;> simp [adicionarPessoa, modificarPessoa, hb]

/-- Witness for C6 at a concrete non-JSON content-type. -/
theorem C6_witness :
    adicionarPessoa { rows := [], nextId := 1 } "text/plain" (.ok { ID := 0, Nome := "Ana" }) =
      (httpError "O Content-Type deve ser application/json" 415, { rows := [], nextId := 1 }) ∧
    modificarPessoa { rows := [], nextId := 1 } "text/plain" "1" (.ok { ID := 0, Nome := "Ana" }) =
      (httpError "O Content-Type deve ser application/json" 415, { rows := [], nextId := 1 }) :=
  C6_content_type_guard { rows := [], nextId := 1 } "text/plain"
    (.ok { ID := 0, Nome := "Ana" }) "1" (by decide)

/-- C9: the Create and Update handlers compare the Content-Type header to
the exact string "application/json"; any other value — including the
JSON-declaring "application/json; charset=utf-8" — is rejected with 415
even though its body is valid JSON. -/
theorem C9_exact_content_type :
    (∀ (db : DB) (ct : String) (decoded : Except String Pessoa) (idStr : String),
        ct ≠ "application/json" →
          (adicionarPessoa db ct decoded).1.status = 415 ∧
          (modificarPessoa db ct idStr decoded).1.status = 415) ∧
    (∀ (db : DB) (decoded : Except String Pessoa) (idStr : String),
        (adicionarPessoa db "application/json; charset=utf-8" decoded).1.status = 415 ∧
        (modificarPessoa db "application/json; charset=utf-8" idStr decoded).1.status = 415) := by
  have key : ∀ (db : DB) (ct : String) (decoded : Except String Pessoa) (idStr : String),
      ct ≠ "application/json" →
        (adicionarPessoa db ct decoded).1.status = 415 ∧
        (modificarPessoa db ct idStr decoded).1.status = 415 := by
    intro db ct decoded idStr h
    have hb : (ct != "application/json") = true := by simpa using h
    refine ⟨?_, ?_⟩ <;> simp [adicionarPessoa, modificarPessoa, hb, httpError]
  exact ⟨key, fun db decoded idStr => key db _ decoded idStr (by decide)⟩

/-- Witness for C9 at a concrete database and request. -/
theorem C9_witness :
    (adicionarPessoa { rows := [], nextId := 1 } "text/html"
      (.ok { ID := 0, Nome := "Ana" })).1.status = 415 ∧
    (modificarPessoa { rows := [], nextId := 1 } "application/json; charset=utf-8" "1"
      (.ok { ID := 0, Nome := "Ana" })).1.status = 415 :=
  ⟨(C9_exact_content_type.1 { rows := [], nextId := 1 } "text/html"
      (.ok { ID := 0, Nome := "Ana" }) "1" (by decide)).1,
   (C9_exact_content_type.2 { rows := [], nextId := 1 }
      (.ok { ID := 0, Nome := "Ana" }) "1").2⟩

/-- C1: creating a Person with any name (the body-supplied id is ignored)
against a database whose stored ids are all below the auto-increment
counter, then fetching the decimal rendering of the id the creation
response returned, yields status 200 and a Person whose id is the returned
id and whose name is the name given at creation. -/
theorem C1_create_then_get (db : DB) (nome : String) (i : Int)
    (hfresh : ∀ p ∈ db.rows, p.ID < db.nextId) :
    (adicionarPessoa db "application/json" (.ok { ID := i, Nome := nome })).1 =
      { status := 200, body := jsonPessoa { ID := db.nextId, Nome := nome } } ∧
    obterPessoa (adicionarPessoa db "application/json" (.ok { ID := i, Nome := nome })).2
        (renderId db.nextId) =
      { status := 200, body := jsonPessoa { ID := db.nextId, Nome := nome } } := by
  rw [adicionarPessoa_ok]
  refine ⟨rfl, ?_⟩
  show obterPessoa (DB.mk (db.rows ++ [Pessoa.mk db.nextId nome]) (db.nextId + 1))
    (renderId db.nextId) = _
  have hco : mysqlCoerceInt (renderId db.nextId) = db.nextId := mysqlCoerceInt_renderId _
  have h1 : db.rows.find? (fun p => p.ID == mysqlCoerceInt (renderId db.nextId)) = none :=
    List.find?_eq_none.mpr (by
      intro p hp
      simp only [hco, beq_iff_eq]
      exact ne_of_lt (hfresh p hp))
  have hfind : (db.rows ++ [Pessoa.mk db.nextId nome]).find?
      (fun p => p.ID == mysqlCoerceInt (renderId db.nextId)) =
      some (Pessoa.mk db.nextId nome) := by
    rw [List.find?_append, h1]
    simp [hco]
  simp only [obterPessoa, dbQueryRowById, hfind]
  rfl

/-- Witness for C1 at a concrete one-row database and the name "Ana". -/
theorem C1_witness :
    (adicionarPessoa { rows := [{ ID := 1, Nome := "Bia" }], nextId := 2 } "application/json"
        (.ok { ID := 0, Nome := "Ana" })).1 =
      { status := 200, body := jsonPessoa { ID := 2, Nome := "Ana" } } ∧
    obterPessoa (adicionarPessoa { rows := [{ ID := 1, Nome := "Bia" }], nextId := 2 }
        "application/json" (.ok { ID := 0, Nome := "Ana" })).2 (renderId 2) =
      { status := 200, body := jsonPessoa { ID := 2, Nome := "Ana" } } :=
  C1_create_then_get { rows := [{ ID := 1, Nome := "Bia" }], nextId := 2 } "Ana" 0 (by
    intro p hp
    rcases List.mem_singleton.mp hp with rfl
    decide)

/-- C4: an Update request with a path id parsing to `id`, JSON content-type
and a valid body answers 404 when the update statement affects zero rows,
and otherwise answers status 200 with exactly the updated Person — the path
id plus the new name — as JSON. -/
theorem C4_update_rows_affected (db : DB) (idStr : String) (id i : Int) (nome : String)
    (hid : goAtoi idStr = some id) :
    ((dbUpdateById db id nome).2 = 0 →
      (modificarPessoa db "application/json" idStr
        (.ok { ID := i, Nome := nome })).1.status = 404) ∧
    ((dbUpdateById db id nome).2 ≠ 0 →
      (modificarPessoa db "application/json" idStr (.ok { ID := i, Nome := nome })).1 =
        { status := 200, body := jsonPessoa { ID := id, Nome := nome } }) := by
  rw [modificarPessoa_ok db idStr id _ hid]
  constructor
  · intro h
    rw [if_pos h]
    rfl
  · intro h
    rw [if_neg h]

/-- Witness for C4: updating the absent id 5 answers 404; updating the
present id 1 to a new name answers the updated Person. -/
theorem C4_witness :
    (modificarPessoa { rows := [{ ID := 1, Nome := "Ana" }], nextId := 2 } "application/json" "5"
        (.ok { ID := 9, Nome := "Bia" })).1.status = 404 ∧
    (modificarPessoa { rows := [{ ID := 1, Nome := "Ana" }], nextId := 2 } "application/json" "1"
        (.ok { ID := 9, Nome := "Bia" })).1 =
      { status := 200, body := jsonPessoa { ID := 1, Nome := "Bia" } } :=
  ⟨(C4_update_rows_affected { rows := [{ ID := 1, Nome := "Ana" }], nextId := 2 } "5" 5 9 "Bia"
      (by decide)).1 (by decide),
   (C4_update_rows_affected { rows := [{ ID := 1, Nome := "Ana" }], nextId := 2 } "1" 1 9 "Bia"
      (by decide)).2 (by decide)⟩

/-- C7 (counterexample): two non-integer path ids that are not answered
with a 4xx.  "abc" is not a valid integer, yet the Delete handler — which
never parses the path id — answers it with status 204, a success status;
and "12abc" is not a valid integer, yet the Get handler forwards it to the
database, where MySQL coerces it to its numeric prefix 12, finds the stored
row with id 12 and answers 200. -/
theorem C7_counterexample :
    (goAtoi "abc" = none ∧
     (removerPessoa { rows := [{ ID := 1, Nome := "Ana" }], nextId := 2 } "abc").1.status = 204 ∧
     ¬(400 ≤ 204 ∧ 204 < 500)) ∧
    (goAtoi "12abc" = none ∧
     (obterPessoa { rows := [{ ID := 12, Nome := "Ana" }], nextId := 13 } "12abc").status = 200 ∧
     ¬(400 ≤ 200 ∧ 200 < 500)) := by decide

/-- C7 (amended): only the Update handler validates the path id, answering
400 with the message "ID inválido" (after the content-type check) when it
is not a valid integer.  The Delete handler never parses the id and answers
204, a success status, whatever the id.  The Get handler never parses the
id either: it forwards the raw string to the database and answers 200 or
404 according to whether the coerced id matches a stored row — a
non-integer id is never rejected as such.  No handler answers a 5xx for a
non-integer id. -/
theorem C7_id_handling (db : DB) (idStr : String) (decoded : Except String Pessoa)
    (hbad : goAtoi idStr = none) :
    (modificarPessoa db "application/json" idStr decoded).1.status = 400 ∧
    (removerPessoa db idStr).1.status = 204 ∧
    ((obterPessoa db idStr).status = 200 ∨ (obterPessoa db idStr).status = 404) := by
  refine ⟨?_, rfl, ?_⟩
  · simp [modificarPessoa, hbad, httpError]
  · rcases h : db.rows.find? (fun p => p.ID == mysqlCoerceInt idStr) with _ | p
    · right
      simp only [obterPessoa, dbQueryRowById, h]
      rfl
    · left
      simp only [obterPessoa, dbQueryRowById, h]
      rfl

/-- Witness for C7 (amended) at the non-integer path id "xyz". -/
theorem C7_witness :
    (modificarPessoa { rows := [{ ID := 1, Nome := "Ana" }], nextId := 2 } "application/json" "xyz"
        (.ok { ID := 0, Nome := "Bia" })).1.status = 400 ∧
    (removerPessoa { rows := [{ ID := 1, Nome := "Ana" }], nextId := 2 } "xyz").1.status = 204 ∧
    ((obterPessoa { rows := [{ ID := 1, Nome := "Ana" }], nextId := 2 } "xyz").status = 200 ∨
     (obterPessoa { rows := [{ ID := 1, Nome := "Ana" }], nextId := 2 } "xyz").status = 404) :=
  C7_id_handling { rows := [{ ID := 1, Nome := "Ana" }], nextId := 2 } "xyz"
    (.ok { ID := 0, Nome := "Bia" }) (by decide)

/-- C8 (counterexample): a Create request with correct content-type and a
valid JSON body carrying the empty name succeeds with status 200 and stores
a Person whose name is empty — the handler never validates the name. -/
theorem C8_counterexample :
    (adicionarPessoa { rows := [], nextId := 1 } "application/json"
        (.ok { ID := 0, Nome := "" })).1.status = 200 ∧
    (adicionarPessoa { rows := [], nextId := 1 } "application/json"
        (.ok { ID := 0, Nome := "" })).2.rows = [{ ID := 1, Nome := "" }] := by decide

/-- C8 (amended): the name is not validated: a Create with any name, the
empty string included, succeeds with 200 and appends a row carrying exactly
that name; an Update to the empty name succeeds with 200 whenever at least
one matching row changes, and stores the empty name. -/
theorem C8_name_not_validated (db : DB) (i : Int) (nome : String) (idStr : String) (id : Int)
    (hid : goAtoi idStr = some id) (hex : ∃ p ∈ db.rows, p.ID = id ∧ p.Nome ≠ "") :
    ((adicionarPessoa db "application/json" (.ok { ID := i, Nome := nome })).1.status = 200 ∧
     (adicionarPessoa db "application/json" (.ok { ID := i, Nome := nome })).2.rows =
       db.rows ++ [{ ID := db.nextId, Nome := nome }]) ∧
    ((modificarPessoa db "application/json" idStr (.ok { ID := i, Nome := "" })).1.status = 200 ∧
     { ID := id, Nome := "" } ∈
       (modificarPessoa db "application/json" idStr (.ok { ID := i, Nome := "" })).2.rows) := by
  have hcreate := adicionarPessoa_ok db { ID := i, Nome := nome }
  have hcount : 0 < db.rows.countP (fun p => p.ID == id && p.Nome != "") := by
    rw [List.countP_pos_iff]
    obtain ⟨p, hp, hpid, hpn⟩ := hex
    exact ⟨p, hp, by simp [hpid, hpn]⟩
  refine ⟨⟨by rw [hcreate], by rw [hcreate]⟩, ?_⟩
  rw [modificarPessoa_ok db idStr id _ hid]
  have hne : (dbUpdateById db id (Pessoa.mk i "").Nome).2 ≠ 0 := by
    show db.rows.countP (fun p => p.ID == id && p.Nome != "") ≠ 0
    omega
  rw [if_neg hne]
  refine ⟨rfl, ?_⟩
  obtain ⟨p, hp, hpid, _⟩ := hex
  show { ID := id, Nome := "" } ∈ db.rows.map fun p => if p.ID = id then { p with Nome := "" } else p
  refine List.mem_map.mpr ⟨p, hp, ?_⟩
  rw [if_pos hpid]
  cases p
  simp_all

/-- Witness for C8 (amended): creating the empty name and blanking the name
of the stored Person 1. -/
theorem C8_witness :
    ((adicionarPessoa { rows := [{ ID := 1, Nome := "Ana" }], nextId := 2 } "application/json"
        (.ok { ID := 0, Nome := "" })).1.status = 200 ∧
     (adicionarPessoa { rows := [{ ID := 1, Nome := "Ana" }], nextId := 2 } "application/json"
        (.ok { ID := 0, Nome := "" })).2.rows =
       [{ ID := 1, Nome := "Ana" }] ++ [{ ID := 2, Nome := "" }]) ∧
    ((modificarPessoa { rows := [{ ID := 1, Nome := "Ana" }], nextId := 2 } "application/json" "1"
        (.ok { ID := 0, Nome := "" })).1.status = 200 ∧
     { ID := 1, Nome := "" } ∈
       (modificarPessoa { rows := [{ ID := 1, Nome := "Ana" }], nextId := 2 } "application/json" "1"
        (.ok { ID := 0, Nome := "" })).2.rows) :=
  C8_name_not_validated { rows := [{ ID := 1, Nome := "Ana" }], nextId := 2 } 0 "" "1" 1
    (by decide) ⟨{ ID := 1, Nome := "Ana" }, List.mem_singleton.mpr rfl, rfl, by decide⟩

/-- C10: the Update response is built solely from the path id and the
request body's name: two requests differing only in the body-supplied id
produce identical outcomes (that id is ignored, overwritten by the path
id), and every successful (status 200) response's body is the JSON encoding
of the path id with the request name — the stored prior Person is never
read back. -/
theorem C10_update_response_from_request (db : DB) (idStr : String) (id b1 b2 : Int)
    (nome : String) (hid : goAtoi idStr = some id) :
    modificarPessoa db "application/json" idStr (.ok { ID := b1, Nome := nome }) =
      modificarPessoa db "application/json" idStr (.ok { ID := b2, Nome := nome }) ∧
    ((modificarPessoa db "application/json" idStr
        (.ok { ID := b1, Nome := nome })).1.status = 200 →
      (modificarPessoa db "application/json" idStr (.ok { ID := b1, Nome := nome })).1.body =
        jsonPessoa { ID := id, Nome := nome }) := by
  rw [modificarPessoa_ok db idStr id _ hid, modificarPessoa_ok db idStr id _ hid]
  refine ⟨rfl, ?_⟩
  rcases Nat.eq_zero_or_pos (dbUpdateById db id (Pessoa.mk b1 nome).Nome).2 with h | h
  · rw [if_pos h]
    intro hc
    simp [httpError] at hc
  · rw [if_neg (by omega)]
    intro _
    rfl

/-- Witness for C10: two updates of Person 1 to "Bia" differing only in the
body-supplied id coincide, and the successful body is the path id with the
new name. -/
theorem C10_witness :
    (modificarPessoa { rows := [{ ID := 1, Nome := "Ana" }], nextId := 2 } "application/json" "1"
        (.ok { ID := 7, Nome := "Bia" }) =
      modificarPessoa { rows := [{ ID := 1, Nome := "Ana" }], nextId := 2 } "application/json" "1"
        (.ok { ID := 8, Nome := "Bia" })) ∧
    (modificarPessoa { rows := [{ ID := 1, Nome := "Ana" }], nextId := 2 } "application/json" "1"
        (.ok { ID := 7, Nome := "Bia" })).1.body = jsonPessoa { ID := 1, Nome := "Bia" } :=
  ⟨(C10_update_response_from_request { rows := [{ ID := 1, Nome := "Ana" }], nextId := 2 } "1" 1 7 8
      "Bia" (by decide)).1,
   (C10_update_response_from_request { rows := [{ ID := 1, Nome := "Ana" }], nextId := 2 } "1" 1 7 8
      "Bia" (by decide)).2 (by decide)⟩

example : natDigits 0 = ['0'] := by decide
example : natDigits 10 = ['1', '0'] := by decide
example : renderId 123 = "123" := by decide
example : renderId (-45) = "-45" := by decide
example : goAtoi "123" = some 123 := by decide
example : goAtoi "-45" = some (-45) := by decide
example : goAtoi "abc" = none := by decide
example : goAtoi "" = none := by decide
example : goAtoi "+7" = some 7 := by decide
example : jsonPessoa { ID := 1, Nome := "Ana" } = "\x7b\"id\":1,\"nome\":\"Ana\"\x7d\n" := by decide
example : listarPessoas { rows := [], nextId := 1 } = { status := 200, body := "null\n" } := by decide
